import Mathlib

/-!
Verification of the Divine-Pride → rAthena monster-conversion pipeline.

This file gives a shallow embedding of the repository's core transformation
functions (src/utils/utils.py, src/utils/mapper.py, src/utils/spawn_helper.py,
src/utils/skill_helper.py, src/utils/yaml_helper.py, src/main.py) and proves
the specification's testable properties about them.

Python's loosely-typed JSON-ish values are modelled by the inductive type
`Val`; a Python dict is an association list `List (String × Val)` (the code
never creates duplicate keys).  Fallible Python operations (int() on a
non-numeric value, attribute access on a wrongly-typed value) are modelled
with `Except Unit`; an `.error ()` corresponds to an uncaught / caught Python
exception at that point.
-/

/-- A Python/JSON value as handled by the pipeline: None, bool, int, str,
list or dict.  Floats never occur in the modelled code paths. -/
inductive Val where
  | none
  | bool (b : Bool)
  | int (n : Int)
  | str (s : String)
  | list (elems : List Val)
  | dict (entries : List (String × Val))

/-- A Python dict (association list; the embedded code never creates
duplicate keys). -/
abbrev Dict := List (String × Val)

/-- Python truthiness (`bool(v)`): None, False, 0, "", [], {} are falsy. -/
def truthy : Val → Bool
  | Val.none => false
  | Val.bool b => b
  | Val.int n => n != 0
  | Val.str s => s != ""
  | Val.list xs => !xs.isEmpty
  | Val.dict xs => !xs.isEmpty

/-- Python `a or b`: `a` if truthy, else `b`. -/
def vOr (a b : Val) : Val := if truthy a then a else b

mutual
/-- Python `==` on modelled values.  Booleans compare equal to the
corresponding ints (True == 1) as in Python.  Dict comparison is modelled
order-sensitively (the embedded code only compares scalar Id fields). -/
def pyEq : Val → Val → Bool
  | Val.none, Val.none => true
  | Val.bool a, Val.bool b => a == b
  | Val.bool a, Val.int n => (if a then (1 : Int) else 0) == n
  | Val.int n, Val.bool a => n == (if a then (1 : Int) else 0)
  | Val.int a, Val.int b => a == b
  | Val.str a, Val.str b => a == b
  | Val.list xs, Val.list ys => pyEqList xs ys
  | Val.dict xs, Val.dict ys => pyEqPairs xs ys
  | _, _ => false

def pyEqList : List Val → List Val → Bool
  | [], [] => true
  | x :: xs, y :: ys => pyEq x y && pyEqList xs ys
  | _, _ => false

def pyEqPairs : List (String × Val) → List (String × Val) → Bool
  | [], [] => true
  | (k1, v1) :: xs, (k2, v2) :: ys => k1 == k2 && pyEq v1 v2 && pyEqPairs xs ys
  | _, _ => false
end

/-- Embeds Python `d.get(k, default)` on a dict. -/
def dgetD (d : Dict) (k : String) (dflt : Val) : Val :=
  match d.lookup k with
  | Option.some v => v
  | Option.none => dflt

/-- Embeds Python `d.get(k)` on a dict (default None). -/
def dget (d : Dict) (k : String) : Val := dgetD d k Val.none

/-- Embeds Python `k in d` on a dict. -/
def hasKey (d : Dict) (k : String) : Bool := (d.lookup k).isSome

/-- Embeds Python `d[k] = v` on a dict: replace the value in place at the existing
key position, or append a new key at the end (Python insertion order). -/
def dset (d : Dict) (k : String) (v : Val) : Dict :=
  if hasKey d k then d.map (fun kv => if kv.1 = k then (k, v) else kv)
  else d ++ [(k, v)]

/-- Embeds Python `d.setdefault(k, v)`: append `(k, v)` only if the key is absent. -/
def setdefault (d : Dict) (k : String) (v : Val) : Dict :=
  if hasKey d k then d else d ++ [(k, v)]

/-- Python `str.strip()` (ASCII whitespace), implemented structurally over
the character list so that it evaluates under `decide`/`rfl`. -/
def pyStrip (s : String) : String :=
  String.mk
    (((s.data.dropWhile Char.isWhitespace).reverse.dropWhile
        Char.isWhitespace).reverse)

/-- Python `str.upper()` (ASCII), structural. -/
def pyUpper (s : String) : String := String.mk (s.data.map Char.toUpper)

/-- Python `str.lower()` (ASCII), structural. -/
def pyLower (s : String) : String := String.mk (s.data.map Char.toLower)

/-- Embeds Python `str.split(sep)` for a single-character separator, over char lists:
always yields at least one (possibly empty) fragment, empty fragments
between adjacent separators included, as in Python. -/
def splitOnCharList (sep : Char) : List Char → List (List Char)
  | [] => [[]]
  | c :: rest =>
    let r := splitOnCharList sep rest
    if c = sep then [] :: r
    else
      match r with
      | [] => [[c]]
      | g :: gs => (c :: g) :: gs

/-- Python `s.split("_")`. -/
def splitUnderscore (s : String) : List String :=
  (splitOnCharList '_' s.data).map String.mk

/-- Decimal-digit run to a natural number; `Option.none` if empty or any
non-digit character occurs. -/
def digitsToNat (cs : List Char) : Option Nat :=
  if cs.isEmpty then Option.none
  else if cs.all Char.isDigit then
    Option.some (cs.foldl (fun a c => a * 10 + (c.toNat - 48)) 0)
  else Option.none

/-- Python `int(s)` on a string: strip whitespace, optional sign, decimal
digits.  (Digit-group underscores and non-decimal bases are not modelled;
no code path in the repository relies on them.) -/
def parseIntStr (s : String) : Option Int :=
  match (pyStrip s).data with
  | [] => Option.none
  | c :: rest =>
    if c = '-' then (digitsToNat rest).map (fun n => -(n : Int))
    else if c = '+' then (digitsToNat rest).map (fun n => (n : Int))
    else (digitsToNat (c :: rest)).map (fun n => (n : Int))

/-- Python `int(v)`: ints pass through, bools become 0/1, strings are
parsed; None, lists, dicts and non-numeric strings raise
(TypeError/ValueError), modelled as `.error ()`. -/
def pyInt : Val → Except Unit Int
  | Val.int n => Except.ok n
  | Val.bool b => Except.ok (if b then 1 else 0)
  | Val.str s =>
    match parseIntStr s with
    | Option.some n => Except.ok n
    | Option.none => Except.error ()
  | _ => Except.error ()

/-- Embeds `utils.utils.positive(value)`: `abs(int(value))`, or 0 when `int(...)`
raises TypeError/ValueError. -/
def positive (v : Val) : Int :=
  match pyInt v with
  | Except.ok n => (n.natAbs : Int)
  | Except.error _ => 0

/-- Embeds `utils.utils.value_fallback(value, fallback)`: positive(value) if > 0,
else positive(fallback) if > 0, else the hard default 350. -/
def value_fallback (value fallback : Val) : Int :=
  let primary := positive value
  if primary > 0 then primary
  else
    let secondary := positive fallback
    if secondary > 0 then secondary
    else 350

/-- Embeds `utils.utils._safe_int(value, default)`: `int(value)` or the default on
TypeError/ValueError. -/
def safe_int (value : Val) (dflt : Int) : Int :=
  match pyInt value with
  | Except.ok n => n
  | Except.error _ => dflt

mutual
/-- Python `str(v)` (with `q = false`) / `repr(v)` (with `q = true`):
scalars as Python prints them; container rendering is structural (string
escaping inside reprs is not modelled; the pipeline only stringifies
scalars). -/
def pyReprAux (q : Bool) : Val → String
  | Val.none => "None"
  | Val.bool b => if b then "True" else "False"
  | Val.int n => toString n
  | Val.str s =>
    if q then String.singleton (Char.ofNat 39) ++ s ++ String.singleton (Char.ofNat 39)
    else s
  | Val.list xs => "[" ++ pyReprItems xs ++ "]"
  | Val.dict xs => "\x7b" ++ pyReprPairsStr xs ++ "\x7d"

def pyReprItems : List Val → String
  | [] => ""
  | [x] => pyReprAux true x
  | x :: y :: xs => pyReprAux true x ++ ", " ++ pyReprItems (y :: xs)

def pyReprPairsStr : List (String × Val) → String
  | [] => ""
  | [(k, v)] =>
    String.singleton (Char.ofNat 39) ++ k ++ String.singleton (Char.ofNat 39)
      ++ ": " ++ pyReprAux true v
  | (k, v) :: p :: xs =>
    String.singleton (Char.ofNat 39) ++ k ++ String.singleton (Char.ofNat 39)
      ++ ": " ++ pyReprAux true v ++ ", " ++ pyReprPairsStr (p :: xs)
end

/-- Python `str(v)`. -/
def pyStr : Val → String := pyReprAux false

/-- Embeds `utils.utils._safe_str(value)`: `str(value).strip()` for non-None,
else "". -/
def safe_str (value : Val) : String :=
  match value with
  | Val.none => ""
  | v => pyStrip (pyStr v)

/-- Python `str.capitalize()`: first character upper-cased, remainder
lower-cased (ASCII). -/
def capitalizeWord (s : String) : String :=
  match s.data with
  | [] => ""
  | c :: rest => String.mk (c.toUpper :: rest.map Char.toLower)

/-- Embeds `utils.utils.normalize_dbname(name)` on an actual string: empty input
yields "", otherwise trim, split on underscore when present, capitalize
each fragment, join with single spaces. -/
def normalize_dbname (name : String) : String :=
  if name = "" then ""
  else
    let name := pyStrip name
    let parts :=
      if name.data.contains '_' then splitUnderscore name else [name]
    " ".intercalate (parts.map capitalizeWord)

/-- Lifts `normalize_dbname` to a loosely-typed value, as the callers do:
falsy input (None, "") yields ""; a non-string truthy value raises
AttributeError at `.strip()` (modelled as `.error ()`). -/
def normalizeVal (v : Val) : Except Unit String :=
  if truthy v then
    match v with
    | Val.str s => Except.ok (normalize_dbname s)
    | _ => Except.error ()
  else Except.ok ""

/-- A Python int used in arithmetic position (`%`, `//`): ints and bools
are numbers, everything else raises TypeError. -/
def asNum : Val → Except Unit Int
  | Val.int n => Except.ok n
  | Val.bool b => Except.ok (if b then 1 else 0)
  | _ => Except.error ()

/-- A value required to be a dict (attribute access `.get` on anything else
raises AttributeError). -/
def asDict : Val → Except Unit Dict
  | Val.dict d => Except.ok d
  | _ => Except.error ()

/-- A value required to be a string (attribute access `.strip()`/`.split()`
on anything else raises AttributeError). -/
def asStr : Val → Except Unit String
  | Val.str s => Except.ok s
  | _ => Except.error ()

/-- A value required to be a list (iterating anything else either raises or
yields non-dict elements which the loop bodies then crash on). -/
def asList : Val → Except Unit (List Val)
  | Val.list xs => Except.ok xs
  | _ => Except.error ()

/-!
### Enumeration mappers (src/utils/mapper.py)
-/

/-- Embeds `utils.mapper.get_class_name(class_id)`: two-stage lookup — divine
class code indexes the bucket list `[0, 1, 1, 2, 0, 3]`, whose entry then
indexes `["Normal", "Boss", "Guardian"]`; any failed stage warns and
returns "Normal". -/
def get_class_name (class_id : Int) : String :=
  let mapping_divine_to_rathena : List Int := [0, 1, 1, 2, 0, 3]
  let names : List String := ["Normal", "Boss", "Guardian"]
  if 0 ≤ class_id ∧ class_id < (mapping_divine_to_rathena.length : Int) then
    let idx := mapping_divine_to_rathena.getD class_id.toNat 0
    if 0 ≤ idx ∧ idx < (names.length : Int) then names.getD idx.toNat "Normal"
    else "Normal"
  else "Normal"

/-- Embeds `utils.mapper.get_element_name(element_id)`: table lookup for codes
0–9, default "Neutral". -/
def get_element_name (element_id : Int) : String :=
  let elements : List String :=
    ["Neutral", "Water", "Earth", "Fire", "Wind",
     "Poison", "Holy", "Dark", "Ghost", "Undead"]
  if 0 ≤ element_id ∧ element_id < (elements.length : Int) then
    elements.getD element_id.toNat "Neutral"
  else "Neutral"

/-- Embeds `utils.mapper.get_size_name(size_id)`: table lookup for codes 0–2,
default "Medium". -/
def get_size_name (size_id : Int) : String :=
  let sizes : List String := ["Small", "Medium", "Large"]
  if 0 ≤ size_id ∧ size_id < (sizes.length : Int) then
    sizes.getD size_id.toNat "Medium"
  else "Medium"

/-- Embeds `utils.mapper.get_race_name(race_id)`: table lookup for codes 0–9,
default "Formless". -/
def get_race_name (race_id : Int) : String :=
  let races : List String :=
    ["Formless", "Undead", "Brute", "Plant", "Insect",
     "Fish", "Demon", "DemiHuman", "Angel", "Dragon"]
  if 0 ≤ race_id ∧ race_id < (races.length : Int) then
    races.getD race_id.toNat "Formless"
  else "Formless"

/-!
### Spawn-line builder (src/utils/spawn_helper.py)
-/

namespace spawn_helper

/-- Embeds `utils.spawn_helper.build_line(mapname, x, y, mobname, mobid, amount,
delay)`: sanitize strings, coerce numerics with per-field defaults, and
format the tab/comma spawn line. -/
def build_line (mapname x y mobname mobid amount delay : Val) : String :=
  let mapname := safe_str mapname
  let mobname := safe_str mobname
  let x := safe_int x 0
  let y := safe_int y 0
  let mobid := safe_int mobid 0
  let amount := safe_int amount 1
  let delay := safe_int delay 5000
  mapname ++ "," ++ toString x ++ "," ++ toString y ++ "\tmonster\t"
    ++ mobname ++ "\t" ++ toString mobid ++ "," ++ toString amount ++ ","
    ++ toString delay

end spawn_helper

/-!
### Claim theorems: primitive coercion, mappers, spawn line
-/

/-- C3: for every pair of loosely-typed inputs `(v, f)` — negative, zero,
null and non-numeric strings included — `value_fallback v f` returns
`|v|` (i.e. `positive v`, the absolute value of the parsed integer, 0 when
unparseable) when that is positive, else `|f|` when positive, else 350;
consequently the result is always strictly positive. -/
theorem value_fallback_spec (v f : Val) :
    (0 < positive v → value_fallback v f = positive v) ∧
    (positive v = 0 → 0 < positive f → value_fallback v f = positive f) ∧
    (positive v = 0 → positive f = 0 → value_fallback v f = 350) ∧
    (∀ n : Int, pyInt v = Except.ok n → positive v = (n.natAbs : Int)) ∧
    (pyInt v = Except.error () → positive v = 0) ∧
    0 < value_fallback v f := by
  refine ⟨?_, ?_, ?_, ?_, ?_, ?_⟩
  · intro h
    unfold value_fallback
    rw [if_pos h]
  · intro h0 h1
    unfold value_fallback
    rw [if_neg (by omega), if_pos h1]
  · intro h0 h1
    unfold value_fallback
    rw [if_neg (by omega), if_neg (by omega)]
  · intro n hn
    unfold positive
    rw [hn]
  · intro hn
    unfold positive
    rw [hn]
  · show 0 < if positive v > 0 then positive v
        else if positive f > 0 then positive f else 350
    split
    · assumption
    · split
      · assumption
      · norm_num

/-- C3 witness: a concrete run through the first fallback branch. -/
theorem value_fallback_spec_witness :
    0 < positive (Val.str "20") ∧
    value_fallback (Val.str "20") (Val.int 100) = positive (Val.str "20") :=
  ⟨by decide, (value_fallback_spec (Val.str "20") (Val.int 100)).1 (by decide)⟩

/-- C4 (code bug): raw class code 5 is in range and its bucket entry is 3,
but the final name list has only indices 0–2, so `get_class_name 5` falls
through to the default "Normal" — contradicting the function's own
docstring (`5 → Guardian`) and the claim; code 3 (bucket 2) does reach
"Guardian". -/
theorem get_class_name_five_is_normal :
    get_class_name 5 = "Normal" ∧ get_class_name 3 = "Guardian" :=
  ⟨rfl, rfl⟩

/-- C9: `spawn_helper.build_line` trims the map/name strings, coerces every
numeric argument with its per-field default (x=0, y=0, id=0, amount=1,
delay=5000) and emits the exact tab/comma format; in particular the claim's
concrete example holds, and a call with all numeric fields absent (None)
falls back to the documented defaults. -/
theorem spawn_build_line_spec :
    (∀ mapname x y mobname mobid amount delay : Val,
      spawn_helper.build_line mapname x y mobname mobid amount delay
        = safe_str mapname ++ "," ++ toString (safe_int x 0) ++ ","
            ++ toString (safe_int y 0) ++ "\tmonster\t" ++ safe_str mobname
            ++ "\t" ++ toString (safe_int mobid 0) ++ ","
            ++ toString (safe_int amount 1) ++ ","
            ++ toString (safe_int delay 5000)) ∧
    spawn_helper.build_line (Val.str "abbey01") (Val.int 0) (Val.int 0)
        (Val.str "Flame Skull") (Val.int 1869) (Val.int 21) (Val.int 5000)
      = "abbey01,0,0\tmonster\tFlame Skull\t1869,21,5000" ∧
    spawn_helper.build_line (Val.str "  prt_fild08 ") Val.none Val.none
        (Val.str " Poring ") Val.none Val.none Val.none
      = "prt_fild08,0,0\tmonster\tPoring\t0,1,5000" :=
  ⟨fun _ _ _ _ _ _ _ => rfl, rfl, rfl⟩

/-!
### Skill-line builder (src/utils/skill_helper.py)
-/

namespace skill_helper

/-- Embeds `EXPECTED_SKILL_FIELDS`: keys a Divine-Pride skill entry may carry
without triggering an unmapped-field warning (diagnostic only). -/
def EXPECTED_SKILL_FIELDS : List String :=
  ["idx", "skillId", "status", "level", "chance", "casttime", "delay",
   "interruptable", "changeTo", "condition", "conditionValue", "sendType",
   "sendValue"]

/-- Embeds `KNOWN_CONDITIONS`: Divine-Pride condition code →
(condition-type literal, logical target). -/
def KNOWN_CONDITIONS : List (String × String × String) :=
  [("IF_HP", ("myhpltmaxrate", "self")),
   ("IF_MONSTERCOUNT", ("monstersaround", "self")),
   ("IF_ENEMYCOUNT", ("enemycount", "target")),
   ("IF_RUDEATTACK", ("rudeattacked", "target")),
   ("IF_RANGEATTACKED", ("farerangeattacked", "target")),
   ("IF_MAGICLOCKED", ("magiclocked", "self")),
   ("IF_GROUNDATTACKCHECK", ("groundattacked", "self")),
   ("IF_SKILLUSE", ("skillused", "target")),
   ("IF_SLAVENUM", ("slavereqgt", "self")),
   ("IF_JOBCHECK", ("job", "target"))]

/-- Embeds `RATHENA_CONDITION_WHITELIST`: engine-recognized condition-type
literals. -/
def RATHENA_CONDITION_WHITELIST : List String :=
  ["myhpltmaxrate", "monstersaround", "enemycount", "rudeattacked",
   "farerangeattacked", "magiclocked", "groundattacked", "skillused",
   "slavereqgt", "job"]

/-- Embeds `KNOWN_SEND_TYPES`: send-type codes with a mapped notification slot. -/
def KNOWN_SEND_TYPES : List String := ["SEND_EMOTICON"]

/-- Embeds `CONDITION_TARGET_MAP`: logical target → rAthena target literal. -/
def CONDITION_TARGET_MAP : List (String × String) :=
  [("self", "self"), ("enemy", "target"), ("target", "target")]

/-- Embeds `skill_helper.map_condition(cond, value)`: falsy condition or a code
outside `KNOWN_CONDITIONS` yields three empty values (the latter with a
warning); a known code yields its (condition-type, value, logical-target)
triple, with `IF_SLAVENUM` defaulting an empty value to "1".  A truthy
non-string condition raises AttributeError at `.strip()`. -/
def map_condition (cond value : Val) : Except Unit (String × Val × String) :=
  if !truthy cond then Except.ok ("", Val.str "", "")
  else
    match cond with
    | Val.str s =>
      let cond_key := pyUpper (pyStrip s)
      match KNOWN_CONDITIONS.lookup cond_key with
      | Option.none => Except.ok ("", Val.str "", "")
      | Option.some (cond_type, logical_target) =>
        let cond_value := vOr value (Val.str "")
        let cond_value :=
          if cond_key = "IF_SLAVENUM" && !truthy cond_value then Val.str "1"
          else cond_value
        Except.ok (cond_type, cond_value, logical_target)
    | _ => Except.error ()

/-- Embeds `skill_helper.map_send(send_type, send_value)`: only `SEND_EMOTICON`
is mapped (its value fills the emotion slot); falsy or unknown send types
yield three empty slots.  A truthy non-string raises AttributeError. -/
def map_send (send_type send_value : Val) : Except Unit (String × String × String) :=
  if !truthy send_type then Except.ok ("", "", "")
  else
    match send_type with
    | Val.str s =>
      let st := pyUpper (pyStrip s)
      if !KNOWN_SEND_TYPES.contains st then Except.ok ("", "", "")
      else if st = "SEND_EMOTICON" then
        Except.ok (pyStr (vOr send_value (Val.str "")), "", "")
      else Except.ok ("", "", "")
    | _ => Except.error ()

/-- The defensive whitelist pass of `skill_helper.build_line` (lines
236–242): a non-empty condition type outside
`RATHENA_CONDITION_WHITELIST` is cleared together with its value (with a
warning); anything else passes through unchanged. -/
def apply_whitelist (cond_type : String) (cond_value : Val) : String × Val :=
  if cond_type ≠ "" ∧ ¬ RATHENA_CONDITION_WHITELIST.contains cond_type then
    ("", Val.str "")
  else (cond_type, cond_value)

/-- The target-resolution step of `build_line`:
`CONDITION_TARGET_MAP.get((logical_target or "").lower(), "target")`. -/
def resolve_target (logical_target : String) : String :=
  match CONDITION_TARGET_MAP.lookup (pyLower logical_target) with
  | Option.some t => t
  | Option.none => "target"

/-- Embeds the expression `str(x) if x is not None else ""` used for the val1/val2 slots. -/
def val_str (v : Val) : String :=
  match v with
  | Val.none => ""
  | v => pyStr v

/-- The 19-column field list built by `skill_helper.build_line` before
comma-joining.  `.error ()` models an exception escaping `build_line`
(caught by the caller, which then skips the line). -/
def build_fields (mob_id : Int) (dbname : String) (skill : Dict) :
    Except Unit (List String) := do
  let statusS ← asStr (vOr (dget skill "status") (Val.str "IDLE_ST"))
  let status := pyStrip statusS
  let state := dbname ++ "@" ++ status
  let skill_state := "attack"
  let skill_id ← pyInt (vOr (dget skill "skillId") (Val.int 0))
  let level ← pyInt (vOr (dget skill "level") (Val.int 1))
  let chance ← pyInt (vOr (dget skill "chance") (Val.int 100))
  let cast ← pyInt (vOr (dget skill "casttime") (Val.int 0))
  let delay ← pyInt (vOr (dget skill "delay") (Val.int 0))
  let interruptable := truthy (dgetD skill "interruptable" (Val.bool true))
  let cancelable := if interruptable then "yes" else "no"
  let ctv ← map_condition (dget skill "condition") (dget skill "conditionValue")
  let cw := apply_whitelist ctv.1 ctv.2.1
  let cond_type := cw.1
  let cond_value := cw.2
  let logical_target := ctv.2.2
  let rathena_target := resolve_target logical_target
  let idx := dget skill "idx"
  let change_to := dget skill "changeTo"
  let val1 := val_str idx
  let val2 := val_str change_to
  let val3 := ""
  let val4 := ""
  let ecs ← map_send (dget skill "sendType") (dget skill "sendValue")
  pure [toString mob_id, state, skill_state, toString skill_id,
        toString level, toString chance, toString cast, toString delay,
        cancelable, rathena_target, cond_type, pyStr cond_value,
        val1, val2, val3, val4, ecs.1, ecs.2.1, ecs.2.2]

/-- Embeds `skill_helper.build_line(mob_id, dbname, skill)`: the comma-joined
19-column row. -/
def build_line (mob_id : Int) (dbname : String) (skill : Dict) :
    Except Unit String :=
  (build_fields mob_id dbname skill).map (fun fs => String.intercalate "," fs)

end skill_helper

/-!
### Inversion lemmas for the skill builder
-/

/-- Inversion for Except bind: a successful bind factors through a
successful first stage. -/
theorem except_bind_ok {α β : Type} {x : Except Unit α}
    {f : α → Except Unit β} {b : β} :
    (x >>= f = Except.ok b) ↔ ∃ a, x = Except.ok a ∧ f a = Except.ok b := by
  cases x <;> simp [Bind.bind, Except.bind]

/-- A successful association-list lookup returns a stored pair. -/
theorem lookup_mem_assoc {β : Type} :
    ∀ (l : List (String × β)) (k : String) (v : β),
      l.lookup k = Option.some v → (k, v) ∈ l := by
  intro l
  induction l with
  | nil => intro k v h; simp [List.lookup] at h
  | cons p t ih =>
    intro k v h
    obtain ⟨a, b⟩ := p
    rw [List.lookup] at h
    cases hka : (k == a) with
    | true =>
      rw [hka] at h
      simp only [Option.some.injEq] at h
      subst h
      exact List.mem_cons.mpr (Or.inl (by rw [eq_of_beq hka]))
    | false =>
      rw [hka] at h
      exact List.mem_cons.mpr (Or.inr (ih k v h))

/-- Every condition-type stored in `KNOWN_CONDITIONS` belongs to the
rAthena whitelist. -/
theorem known_conditions_whitelisted (k ct tg : String)
    (h : skill_helper.KNOWN_CONDITIONS.lookup k = Option.some (ct, tg)) :
    skill_helper.RATHENA_CONDITION_WHITELIST.contains ct = true := by
  have hm := lookup_mem_assoc _ _ _ h
  simp only [skill_helper.KNOWN_CONDITIONS, List.mem_cons,
    List.not_mem_nil, or_false, Prod.mk.injEq] at hm
  rcases hm with ⟨-, h1, -⟩ | ⟨-, h1, -⟩ | ⟨-, h1, -⟩ | ⟨-, h1, -⟩ |
    ⟨-, h1, -⟩ | ⟨-, h1, -⟩ | ⟨-, h1, -⟩ | ⟨-, h1, -⟩ | ⟨-, h1, -⟩ |
    ⟨-, h1, -⟩ <;> subst h1 <;> decide

/-- Full inversion of a successful `build_fields` run: each fallible stage
succeeded, and the resulting row is the explicit 19-column list. -/
theorem build_fields_ok (mob_id : Int) (dbname : String) (skill : Dict)
    (fs : List String)
    (h : skill_helper.build_fields mob_id dbname skill = Except.ok fs) :
    ∃ statusS skill_id level chance cast delay ctv ecs,
      asStr (vOr (dget skill "status") (Val.str "IDLE_ST"))
          = Except.ok statusS ∧
      pyInt (vOr (dget skill "skillId") (Val.int 0)) = Except.ok skill_id ∧
      pyInt (vOr (dget skill "level") (Val.int 1)) = Except.ok level ∧
      pyInt (vOr (dget skill "chance") (Val.int 100)) = Except.ok chance ∧
      pyInt (vOr (dget skill "casttime") (Val.int 0)) = Except.ok cast ∧
      pyInt (vOr (dget skill "delay") (Val.int 0)) = Except.ok delay ∧
      skill_helper.map_condition (dget skill "condition")
          (dget skill "conditionValue") = Except.ok ctv ∧
      skill_helper.map_send (dget skill "sendType")
          (dget skill "sendValue") = Except.ok ecs ∧
      fs = [toString mob_id, dbname ++ "@" ++ pyStrip statusS, "attack",
            toString skill_id, toString level, toString chance,
            toString cast, toString delay,
            if truthy (dgetD skill "interruptable" (Val.bool true))
              then "yes" else "no",
            skill_helper.resolve_target ctv.2.2,
            (skill_helper.apply_whitelist ctv.1 ctv.2.1).1,
            pyStr (skill_helper.apply_whitelist ctv.1 ctv.2.1).2,
            skill_helper.val_str (dget skill "idx"),
            skill_helper.val_str (dget skill "changeTo"), "", "",
            ecs.1, ecs.2.1, ecs.2.2] := by
  unfold skill_helper.build_fields at h
  simp only [except_bind_ok, pure, Except.pure, Except.ok.injEq] at h
  obtain ⟨statusS, hs, skill_id, h4, level, h5, chance, h6, cast, h7,
    delay, h8, ctv, h9, ecs, h10, hfs⟩ := h
  exact ⟨statusS, skill_id, level, chance, cast, delay, ctv, ecs,
    hs, h4, h5, h6, h7, h8, h9, h10, hfs.symm⟩

/-!
### Claim theorems: skill lines
-/

/-- C5: a resolved condition type that is non-empty and outside the
engine whitelist is forcibly cleared together with its value by the
defensive pass of `build_line` (columns 11 and 12 of the emitted row);
the second conjunct places that pass at columns 11/12 of every
successfully built row. -/
theorem whitelist_clears_condition :
    (∀ (ct : String) (cv : Val), ct ≠ "" →
      ¬ skill_helper.RATHENA_CONDITION_WHITELIST.contains ct = true →
      skill_helper.apply_whitelist ct cv = ("", Val.str "")) ∧
    (∀ (mob_id : Int) (dbname : String) (skill : Dict) (fs : List String)
      (a : String × Val × String),
      skill_helper.build_fields mob_id dbname skill = Except.ok fs →
      skill_helper.map_condition (dget skill "condition")
          (dget skill "conditionValue") = Except.ok a →
      fs.get? 10 = Option.some (skill_helper.apply_whitelist a.1 a.2.1).1 ∧
      fs.get? 11
        = Option.some (pyStr (skill_helper.apply_whitelist a.1 a.2.1).2)) := by
  constructor
  · intro ct cv h1 h2
    unfold skill_helper.apply_whitelist
    rw [if_pos ⟨h1, h2⟩]
  · intro mob_id dbname skill fs a h hmc
    obtain ⟨statusS, skill_id, level, chance, cast, delay, ctv, ecs,
      -, -, -, -, -, -, h9, -, hfs⟩ := build_fields_ok _ _ _ _ h
    rw [hmc] at h9
    injection h9 with h9
    subst h9
    subst hfs
    constructor <;> rfl

/-- C5 witness: a concrete non-whitelisted condition type is cleared. -/
theorem whitelist_clears_condition_witness :
    (("1" : String) ≠ "" ∧
      ¬ skill_helper.RATHENA_CONDITION_WHITELIST.contains "1" = true) ∧
    skill_helper.apply_whitelist "1" (Val.str "19") = ("", Val.str "") :=
  ⟨⟨by decide, by decide⟩,
    whitelist_clears_condition.1 "1" (Val.str "19") (by decide) (by decide)⟩

/-- C6 counterexample: a skill entry whose `interruptable` key holds None
(not the boolean false) still emits "no" in the cancelability column
(index 8), refuting the claim that only an explicit boolean false does. -/
theorem cancelable_counterexample :
    skill_helper.build_fields 20 "Mob" [("interruptable", Val.none)]
      = Except.ok ["20", "Mob@IDLE_ST", "attack", "0", "1", "100", "0",
          "0", "no", "target", "", "", "", "", "", "", "", "", ""] ∧
    dget [("interruptable", Val.none)] "interruptable" ≠ Val.bool false :=
  ⟨rfl, fun h => Val.noConfusion h⟩

/-- C6 (amended): the cancelability column (index 8) of every successfully
built skill row is "yes" exactly when the raw `interruptable` value is
absent or truthy — an absent key yields "yes", an explicit boolean false
yields "no", and so does any other falsy value (None, 0, ""). -/
theorem cancelable_column (mob_id : Int) (dbname : String) (skill : Dict)
    (fs : List String)
    (h : skill_helper.build_fields mob_id dbname skill = Except.ok fs) :
    fs.get? 8 = Option.some
        (if truthy (dgetD skill "interruptable" (Val.bool true))
          then "yes" else "no") ∧
    (skill.lookup "interruptable" = Option.none →
      fs.get? 8 = Option.some "yes") := by
  obtain ⟨statusS, skill_id, level, chance, cast, delay, ctv, ecs,
    -, -, -, -, -, -, -, -, hfs⟩ := build_fields_ok _ _ _ _ h
  subst hfs
  constructor
  · rfl
  · intro habs
    simp [dgetD, habs, truthy]

/-- C6 witness: an absent `interruptable` key yields "yes" at column 9. -/
theorem cancelable_column_witness :
    skill_helper.build_fields 20 "Mob" []
      = Except.ok ["20", "Mob@IDLE_ST", "attack", "0", "1", "100", "0",
          "0", "yes", "target", "", "", "", "", "", "", "", "", ""] ∧
    (["20", "Mob@IDLE_ST", "attack", "0", "1", "100", "0", "0", "yes",
      "target", "", "", "", "", "", "", "", "", ""].get? 8
        = Option.some "yes") :=
  ⟨rfl, ((cancelable_column 20 "Mob" [] _ rfl).2 rfl)⟩

/-- C10: every value in the known-conditions table is whitelisted; the
condition type returned by `map_condition` is always either empty or a
whitelist literal; hence column 11 of every successfully built skill row
is either empty or a whitelist literal (the defensive clearing branch can
never fire on `map_condition` output). -/
theorem condition_type_always_whitelisted :
    (∀ p ∈ skill_helper.KNOWN_CONDITIONS,
      skill_helper.RATHENA_CONDITION_WHITELIST.contains p.2.1 = true) ∧
    (∀ (cond value : Val) (t : String) (v : Val) (g : String),
      skill_helper.map_condition cond value = Except.ok (t, v, g) →
      t = "" ∨ skill_helper.RATHENA_CONDITION_WHITELIST.contains t = true) ∧
    (∀ (mob_id : Int) (dbname : String) (skill : Dict) (fs : List String)
      (c : String),
      skill_helper.build_fields mob_id dbname skill = Except.ok fs →
      fs.get? 10 = Option.some c →
      c = "" ∨ skill_helper.RATHENA_CONDITION_WHITELIST.contains c = true) := by
  refine ⟨by decide, ?_, ?_⟩
  · intro cond value t v g h
    unfold skill_helper.map_condition at h
    by_cases htr : (!truthy cond) = true
    · rw [if_pos htr] at h
      injection h with h
      injection h with h1 h2
      exact Or.inl h1.symm
    · rw [if_neg htr] at h
      cases cond with
      | str s =>
        cases hlk : skill_helper.KNOWN_CONDITIONS.lookup (pyUpper (pyStrip s)) with
        | none =>
          simp only [hlk] at h
          injection h with h
          injection h with h1 h2
          exact Or.inl h1.symm
        | some p =>
          obtain ⟨ct, tg⟩ := p
          simp only [hlk] at h
          injection h with h
          injection h with h1 h2
          subst h1
          exact Or.inr (known_conditions_whitelisted _ _ _ hlk)
      | none => exact Except.noConfusion h
      | bool b => exact Except.noConfusion h
      | int n => exact Except.noConfusion h
      | list xs => exact Except.noConfusion h
      | dict xs => exact Except.noConfusion h
  · intro mob_id dbname skill fs c h hc
    obtain ⟨statusS, skill_id, level, chance, cast, delay, ctv, ecs,
      -, -, -, -, -, -, h9, -, hfs⟩ := build_fields_ok _ _ _ _ h
    subst hfs
    simp only [List.get?, Option.some.injEq] at hc
    subst hc
    unfold skill_helper.apply_whitelist
    split
    · exact Or.inl rfl
    · case _ hneg =>
      rcases not_and_or.mp hneg with h1 | h2
      · exact Or.inl (not_not.mp h1)
      · exact Or.inr (not_not.mp h2)

/-- C10 witness: a concrete known condition resolves to a whitelisted
type, and a concrete built row has an 11th column in the allowed set. -/
theorem condition_type_always_whitelisted_witness :
    (("myhpltmaxrate" : String) = "" ∨
      skill_helper.RATHENA_CONDITION_WHITELIST.contains "myhpltmaxrate"
        = true) ∧
    (("" : String) = "" ∨
      skill_helper.RATHENA_CONDITION_WHITELIST.contains "" = true) :=
  ⟨condition_type_always_whitelisted.2.1 (Val.str "IF_HP") (Val.str "50")
      "myhpltmaxrate" (Val.str "50") "self" rfl,
    condition_type_always_whitelisted.2.2 20 "Mob" [] _ "" rfl rfl⟩

/-!
### Drop resolver and document store (src/utils/yaml_helper.py)

The item catalog is the list of loaded item-DB YAML files in configured
order: `Option.none` for a missing/unparseable file (Python None from
`load_yaml`), `Option.some d` for a parsed document.  The monster DB
store is `Option Dict`: `Option.none` when the file does not exist,
`Option.some d` for the parsed on-disk document (YAML serialization is
assumed to round-trip values, which it does for this data).
-/

namespace yaml_helper

/-- The inner entry scan of `search_item`: first entry whose `Id` compares
equal (Python `==`) to the item id wins; a non-dict entry raises. -/
def search_body (item_id : Int) : List Val → Except Unit (Option Dict)
  | [] => Except.ok Option.none
  | e :: rest => do
    let entry ← asDict e
    if pyEq (dget entry "Id") (Val.int item_id) then pure (Option.some entry)
    else search_body item_id rest

/-- Embeds `yaml_helper.search_item(item_id)` over the loaded catalog files:
skip falsy documents, scan each `Body` (`data.get("Body", []) or []`) in
order, first match wins. -/
def search_item (dbs : List (Option Dict)) (item_id : Int) :
    Except Unit (Option Dict) :=
  match dbs with
  | [] => Except.ok Option.none
  | d :: rest =>
    match d with
    | Option.none => search_item rest item_id
    | Option.some data =>
      if !truthy (Val.dict data) then search_item rest item_id
      else do
        let es ← asList (vOr (dgetD data "Body" (Val.list [])) (Val.list []))
        let r ← search_body item_id es
        match r with
        | Option.some e => pure (Option.some e)
        | Option.none => search_item rest item_id

/-- The rate computation of `get_drops` (yaml_helper.py lines 141–147):
`int(item.get("chance", 10))`, falling back to 10 on parse failure, then
clamping non-positive values to 10. -/
def drop_rate (item : Dict) : Int :=
  let rate :=
    match pyInt (dgetD item "chance" (Val.int 10)) with
    | Except.ok r => r
    | Except.error _ => 10
  if rate ≤ 0 then 10 else rate

/-- The per-entry loop of `get_drops`: skip entries with falsy or
non-numeric `itemId` or whose id resolves to no catalog entry; otherwise
emit the normalized drop record, preserving input order. -/
def drops_loop (dbs : List (Option Dict)) : List Val → Except Unit (List Dict)
  | [] => Except.ok []
  | itemV :: rest => do
    let item ← asDict itemV
    let item_id_raw := dget item "itemId"
    if !truthy item_id_raw then drops_loop dbs rest
    else
      match pyInt item_id_raw with
      | Except.error _ => drops_loop dbs rest
      | Except.ok item_id => do
        let found ← search_item dbs item_id
        match found with
        | Option.none => drops_loop dbs rest
        | Option.some result => do
          let rate := drop_rate item
          let steal_protected :=
            truthy (dgetD item "stealProtected" (Val.bool false))
          let drop : Dict :=
            [("Item", dget result "AegisName"), ("Rate", Val.int rate),
             ("StealProtected", Val.bool steal_protected)]
          let restDrops ← drops_loop dbs rest
          pure (drop :: restDrops)

/-- Embeds `yaml_helper.get_drops(items)`: falsy input yields `[]`; a truthy
non-list raises when iterated. -/
def get_drops (dbs : List (Option Dict)) (items : Val) :
    Except Unit (List Dict) :=
  if !truthy items then Except.ok []
  else
    match items with
    | Val.list xs => drops_loop dbs xs
    | _ => Except.error ()

/-- The fresh document written by `init_export_yaml` / returned by
`load_monster_db` for a missing file. -/
def fresh_mob_db : Dict :=
  [("Header", Val.dict [("Type", Val.str "MOB_DB"), ("Version", Val.int 2)]),
   ("Body", Val.list [])]

/-- Embeds `yaml_helper.load_monster_db(path)`: missing file yields the fresh
structure; an existing document gets `Header` and `Body` defaulted via
`setdefault` without touching present keys. -/
def load_monster_db (s : Option Dict) : Dict :=
  match s with
  | Option.none => fresh_mob_db
  | Option.some data =>
    setdefault
      (setdefault data "Header"
        (Val.dict [("Type", Val.str "MOB_DB"), ("Version", Val.int 2)]))
      "Body" (Val.list [])

/-- The `for i, mob in enumerate(body)` scan of `upsert_monster`: replace
the first record whose `Id` compares equal to the entry's `Id` (keeping
its position, leaving the tail untouched), reporting whether a
replacement happened; a non-dict record before the match raises. -/
def upsert_body (entry : Dict) : List Val → Except Unit (List Val × Bool)
  | [] => Except.ok ([], false)
  | m :: rest => do
    let mob ← asDict m
    if pyEq (dget mob "Id") (dget entry "Id") then
      Except.ok (Val.dict entry :: rest, true)
    else do
      let ru ← upsert_body entry rest
      pure (m :: ru.1, ru.2)

/-- Embeds `yaml_helper.upsert_monster(entry, path)`: load, scan/replace or
append, write back; returns True exactly when an existing record was
replaced. -/
def upsert_monster (entry : Dict) (s : Option Dict) :
    Except Unit (Option Dict × Bool) := do
  let db := load_monster_db s
  let mobs ← asList (dgetD db "Body" (Val.list []))
  let bu ← upsert_body entry mobs
  let body := if bu.2 then bu.1 else bu.1 ++ [Val.dict entry]
  let db2 := dset db "Body" (Val.list body)
  pure (Option.some db2, bu.2)

end yaml_helper

/-!
### Claim theorems: drop rates
-/

/-- The computed drop rate is always at least 1. -/
theorem drop_rate_ge_one (item : Dict) : 1 ≤ yaml_helper.drop_rate item := by
  unfold yaml_helper.drop_rate
  cases pyInt (dgetD item "chance" (Val.int 10)) with
  | ok r =>
    dsimp only
    by_cases hr : r ≤ 0
    · rw [if_pos hr]
      omega
    · rw [if_neg hr]
      omega
  | error e =>
    dsimp only
    norm_num

/-- Every drop record emitted by the per-entry loop carries an integer
`Rate` of at least 1. -/
theorem drops_loop_rate (dbs : List (Option Dict)) :
    ∀ (xs : List Val) (out : List Dict),
      yaml_helper.drops_loop dbs xs = Except.ok out →
      ∀ d ∈ out, ∃ r : Int, dget d "Rate" = Val.int r ∧ 1 ≤ r := by
  intro xs
  induction xs with
  | nil =>
    intro out h d hd
    unfold yaml_helper.drops_loop at h
    injection h with h
    subst h
    exact absurd hd (List.not_mem_nil d)
  | cons itemV rest ih =>
    intro out h d hd
    unfold yaml_helper.drops_loop at h
    simp only [except_bind_ok] at h
    obtain ⟨item, -, h⟩ := h
    by_cases htr : (!truthy (dget item "itemId")) = true
    · rw [if_pos htr] at h
      exact ih out h d hd
    · rw [if_neg htr] at h
      cases hpi : pyInt (dget item "itemId") with
      | error e =>
        simp only [hpi] at h
        exact ih out h d hd
      | ok item_id =>
        simp only [hpi, except_bind_ok] at h
        obtain ⟨found, -, h⟩ := h
        cases found with
        | none => exact ih out h d hd
        | some result =>
          simp only [except_bind_ok] at h
          obtain ⟨restDrops, hr, h⟩ := h
          simp only [pure, Except.pure, Except.ok.injEq] at h
          subst h
          rcases List.mem_cons.mp hd with rfl | hd2
          · exact ⟨yaml_helper.drop_rate item, rfl, drop_rate_ge_one item⟩
          · exact ih restDrops hr d hd2

/-- C7: the rate of every resolved drop is derived from the raw entry's
`chance` with default 10 — an absent key, a parse failure, or a
non-positive parsed value all yield 10 — and every emitted drop record's
`Rate` is an integer of at least 1. -/
theorem drops_rate_spec :
    (∀ item : Dict,
      1 ≤ yaml_helper.drop_rate item ∧
      (pyInt (dgetD item "chance" (Val.int 10)) = Except.error () →
        yaml_helper.drop_rate item = 10) ∧
      (∀ n : Int, pyInt (dgetD item "chance" (Val.int 10)) = Except.ok n →
        n ≤ 0 → yaml_helper.drop_rate item = 10) ∧
      (item.lookup "chance" = Option.none →
        yaml_helper.drop_rate item = 10)) ∧
    (∀ (dbs : List (Option Dict)) (items : Val) (out : List Dict),
      yaml_helper.get_drops dbs items = Except.ok out →
      ∀ d ∈ out, ∃ r : Int, dget d "Rate" = Val.int r ∧ 1 ≤ r) := by
  constructor
  · intro item
    refine ⟨drop_rate_ge_one item, ?_, ?_, ?_⟩
    · intro he
      unfold yaml_helper.drop_rate
      rw [he]
      dsimp only
      norm_num
    · intro n hn hle
      unfold yaml_helper.drop_rate
      rw [hn]
      dsimp only
      rw [if_pos hle]
    · intro habs
      unfold yaml_helper.drop_rate
      simp [dgetD, habs, pyInt]
  · intro dbs items out h d hd
    unfold yaml_helper.get_drops at h
    by_cases htr : (!truthy items) = true
    · rw [if_pos htr] at h
      injection h with h
      subst h
      exact absurd hd (List.not_mem_nil d)
    · rw [if_neg htr] at h
      cases items with
      | list xs => exact drops_loop_rate dbs xs out h d hd
      | none => exact Except.noConfusion h
      | bool b => exact Except.noConfusion h
      | int n => exact Except.noConfusion h
      | str s => exact Except.noConfusion h
      | dict kvs => exact Except.noConfusion h

/-- C7 witness: a catalog with one item; a drop entry with `chance: 0` is
clamped to rate 10, which is ≥ 1. -/
theorem drops_rate_spec_witness :
    yaml_helper.get_drops
        [Option.some [("Body",
          Val.list [Val.dict [("Id", Val.int 7),
                              ("AegisName", Val.str "Apple")]])]]
        (Val.list [Val.dict [("itemId", Val.int 7), ("chance", Val.int 0)]])
      = Except.ok [[("Item", Val.str "Apple"), ("Rate", Val.int 10),
                    ("StealProtected", Val.bool false)]] ∧
    (∃ r : Int,
      dget [("Item", Val.str "Apple"), ("Rate", Val.int 10),
            ("StealProtected", Val.bool false)] "Rate" = Val.int r ∧
      1 ≤ r) :=
  ⟨rfl,
    drops_rate_spec.2
      [Option.some [("Body",
        Val.list [Val.dict [("Id", Val.int 7),
                            ("AegisName", Val.str "Apple")]])]]
      (Val.list [Val.dict [("itemId", Val.int 7), ("chance", Val.int 0)]])
      [[("Item", Val.str "Apple"), ("Rate", Val.int 10),
        ("StealProtected", Val.bool false)]]
      rfl
      [("Item", Val.str "Apple"), ("Rate", Val.int 10),
       ("StealProtected", Val.bool false)]
      (List.mem_singleton.mpr rfl)⟩

/-!
### Record assembler and driver (src/main.py)
-/

/-- The configured `mvpDamageTaken` multiplier (config.yaml; the
repository default is 10).  Its value does not affect any claim. -/
def config_mvp_damage_taken : Int := 10

/-- The `Element` argument of `_build_yml_core`:
`positive(stats.get("element", 0) % 20) if stats.get("element", 0) else 0`
(Python `%` on a positive modulus is Euclidean, i.e. `Int.emod`). -/
def element_arg (stats : Dict) : Except Unit Int :=
  let elementV := dgetD stats "element" (Val.int 0)
  if truthy elementV then do
    let n ← asNum elementV
    pure (positive (Val.int (Int.emod n 20)))
  else pure 0

/-- The pre-`or 1` part of `ElementLevel`:
`positive(stats.get("element", 0) // 20 if stats.get("element", 0) else 1)`
(Python `//` on a positive divisor is Euclidean, i.e. `Int.ediv`). -/
def element_level_base (stats : Dict) : Except Unit Int :=
  let elementV := dgetD stats "element" (Val.int 0)
  if truthy elementV then do
    let n ← asNum elementV
    pure (positive (Val.int (Int.ediv n 20)))
  else pure (positive (Val.int 1))

/-- Embeds `main._build_yml_core(json_data, stats, monster_id, is_mvp)`: the ~30
scalar attributes of the target monster record, in source key order. -/
def _build_yml_core (json stats : Dict) (monster_id : Int) (is_mvp : Bool) :
    Except Unit Dict := do
  let name ← normalizeVal (dgetD json "dbname" (Val.str ""))
  let elemArg ← element_arg stats
  let elemLvlBase ← element_level_base stats
  let elemLvl := if elemLvlBase = 0 then 1 else elemLvlBase
  let aiS ← asStr (vOr (dget stats "ai") (Val.str "MONSTER_TYPE_21"))
  let ai := positive (Val.str ((splitUnderscore aiS).getLastD ""))
  let classArg ← pyInt (vOr (dget stats "class") (Val.int 0))
  pure [("Id", Val.int monster_id),
        ("AegisName",
          vOr (dget json "sprite") (Val.str ("MOB_" ++ toString monster_id))),
        ("Name", Val.str name),
        ("Level", Val.int (value_fallback (dget stats "level") (Val.int 250))),
        ("Hp", Val.int (value_fallback (dget stats "health") (Val.int 2500000))),
        ("Sp", Val.int (value_fallback (dget stats "sp") (Val.int 10000))),
        ("BaseExp",
          Val.int (value_fallback (dget stats "baseExperience") (Val.int 3000000))),
        ("JobExp",
          Val.int (value_fallback (dget stats "jobExperience") (Val.int 3000000))),
        ("Attack", Val.int (value_fallback (dget stats "atk1") (Val.int 500))),
        ("Attack2", Val.int (value_fallback (dget stats "atk2") (Val.int 300))),
        ("Defense", Val.int (value_fallback (dget stats "defense") (Val.int 1000))),
        ("MagicDefense",
          Val.int (value_fallback (dget stats "magicDefense") (Val.int 600))),
        ("Resistance", Val.int (value_fallback (dget stats "res") (Val.int 500))),
        ("MagicResistance",
          Val.int (value_fallback (dget stats "mres") (Val.int 300))),
        ("Str", Val.int (value_fallback (dget stats "str") (Val.int 200))),
        ("Agi", Val.int (value_fallback (dget stats "agi") (Val.int 200))),
        ("Vit", Val.int (value_fallback (dget stats "vit") (Val.int 200))),
        ("Int", Val.int (value_fallback (dget stats "int") (Val.int 200))),
        ("Dex", Val.int (value_fallback (dget stats "dex") (Val.int 200))),
        ("Luk", Val.int (value_fallback (dget stats "luk") (Val.int 200))),
        ("AttackRange",
          Val.int (value_fallback (dget stats "attackRange") (Val.int 1))),
        ("SkillRange",
          Val.int (value_fallback (dget stats "skillRange") (Val.int 10))),
        ("ChaseRange",
          Val.int (value_fallback (dget stats "aggroRange") (Val.int 12))),
        ("Size", Val.str (get_size_name (positive (dget stats "scale")))),
        ("Race", Val.str (get_race_name (positive (dget stats "race")))),
        ("Element", Val.str (get_element_name elemArg)),
        ("ElementLevel", Val.int elemLvl),
        ("WalkSpeed",
          Val.int (value_fallback (dget stats "movementSpeed") (Val.int 100))),
        ("AttackDelay",
          Val.int (value_fallback (dget stats "attackSpeed") (Val.int 500))),
        ("AttackMotion",
          Val.int (value_fallback (dget stats "attackedSpeed") (Val.int 700))),
        ("ClientAttackMotion",
          Val.int (value_fallback (dget stats "attackedSpeed") (Val.int 700))),
        ("DamageMotion",
          Val.int (value_fallback (dget stats "attackedSpeed") (Val.int 700))),
        ("DamageTaken",
          Val.int (if is_mvp then config_mvp_damage_taken else 100)),
        ("Ai", Val.int ai),
        ("class", Val.str (get_class_name classArg))]

/-- Embeds `main._attach_drops(yml, json_data, is_mvp)`: for an MVP, set
`Modes: {Mvp: True}` and attach `MvpDrops` only when at least one MVP drop
resolved; always attach `Drops` only when at least one ordinary drop
resolved. -/
def _attach_drops (dbs : List (Option Dict)) (yml : Dict) (json : Dict)
    (is_mvp : Bool) : Except Unit Dict := do
  let yml1 ←
    if is_mvp then do
      let ymlM := dset yml "Modes" (Val.dict [("Mvp", Val.bool true)])
      let mvp_drops ← yaml_helper.get_drops dbs
        (dgetD json "mvpdrops" (Val.list []))
      pure (if mvp_drops.isEmpty then ymlM
            else dset ymlM "MvpDrops" (Val.list (mvp_drops.map Val.dict)))
    else pure yml
  let normal_drops ← yaml_helper.get_drops dbs (dgetD json "drops" (Val.list []))
  pure (if normal_drops.isEmpty then yml1
        else dset yml1 "Drops" (Val.list (normal_drops.map Val.dict)))

/-- Embeds `main.mount_monster_yaml(json_data)`: returns the empty dict when the
source identifier does not coerce to a non-zero integer, else the core
block with drops attached. -/
def mount_monster_yaml (dbs : List (Option Dict)) (json : Dict) :
    Except Unit Dict :=
  match pyInt (dget json "id") with
  | Except.error _ => Except.ok []
  | Except.ok monster_id =>
    if monster_id = 0 then Except.ok []
    else do
      let stats ← asDict (dgetD json "stats" (Val.dict []))
      let mvpN ← pyInt (vOr (dget stats "mvp") (Val.int 0))
      let is_mvp := mvpN == 1
      let yml ← _build_yml_core json stats monster_id is_mvp
      _attach_drops dbs yml json is_mvp

/-- Embeds `main.generate_monster(monster_id, json_data)` acting on the document
store: an empty assembled record leaves the store untouched, otherwise
the record is upserted. -/
def generate_monster (dbs : List (Option Dict)) (monster_id : Int)
    (json : Dict) (s : Option Dict) : Except Unit (Option Dict) := do
  let yml ← mount_monster_yaml dbs json
  if yml.isEmpty then pure s
  else do
    let su ← yaml_helper.upsert_monster yml s
    pure su.1

/-!
### Claim theorems: invalid identifiers
-/

/-- Whether a (successful) assembled record is the empty dict, i.e. the
`if not yml` test of `generate_monster`. -/
def mount_is_empty (e : Except Unit Dict) : Bool :=
  match e with
  | Except.ok d => d.isEmpty
  | Except.error _ => false

/-- C2 counterexample: a source record whose identifier is the negative
integer -5 coerces fine (`int(-5)` is truthy), so `mount_monster_yaml`
returns a full, non-empty record and `generate_monster` mutates the
document store — the claim's "or negative" case fails on the code. -/
theorem negative_id_emits_record :
    mount_is_empty (mount_monster_yaml [] [("id", Val.int (-5))]) = false ∧
    (∃ db : Dict,
      generate_monster [] (-5) [("id", Val.int (-5))] Option.none
        = Except.ok (Option.some db)) :=
  ⟨rfl, ⟨_, rfl⟩⟩

/-- C2 (amended): a source record whose identifier does not coerce to a
non-zero integer (non-numeric, null, or zero — but not negative) yields
an empty assembled record and leaves the document store untouched. -/
theorem invalid_id_skipped (dbs : List (Option Dict)) (json : Dict)
    (h : pyInt (dget json "id") = Except.error () ∨
         pyInt (dget json "id") = Except.ok 0) :
    mount_monster_yaml dbs json = Except.ok [] ∧
    (∀ (mid : Int) (s : Option Dict),
      generate_monster dbs mid json s = Except.ok s) := by
  have hm : mount_monster_yaml dbs json = Except.ok [] := by
    unfold mount_monster_yaml
    rcases h with h | h
    · rw [h]
    · rw [h]
      rfl
  refine ⟨hm, ?_⟩
  intro mid s
  unfold generate_monster
  rw [hm]
  rfl

/-- C2 witness: a non-numeric identifier is skipped without mutation. -/
theorem invalid_id_skipped_witness :
    mount_monster_yaml [] [("id", Val.str "x")] = Except.ok [] ∧
    generate_monster [] 99 [("id", Val.str "x")] Option.none
      = Except.ok Option.none :=
  ⟨(invalid_id_skipped [] [("id", Val.str "x")] (Or.inl rfl)).1,
    (invalid_id_skipped [] [("id", Val.str "x")] (Or.inl rfl)).2 99 Option.none⟩


/-!
### Dictionary-key lemmas for the drop-block claims
-/

/-- Lookup distributes over append: the left list wins. -/
theorem lookup_append_assoc (l1 l2 : Dict) (k : String) :
    (l1 ++ l2).lookup k
      = match l1.lookup k with
        | Option.some v => Option.some v
        | Option.none => l2.lookup k := by
  induction l1 with
  | nil => rfl
  | cons p t ih =>
    obtain ⟨a, b⟩ := p
    rw [List.cons_append]
    rw [List.lookup, List.lookup]
    cases hka : (k == a) with
    | true => rfl
    | false => exact ih

/-- Key presence after appending a single pair. -/
theorem hasKey_append_single (d : Dict) (k k2 : String) (v : Val) :
    hasKey (d ++ [(k2, v)]) k = (hasKey d k || (k == k2)) := by
  unfold hasKey
  rw [lookup_append_assoc]
  cases hdk : d.lookup k with
  | some w => rfl
  | none =>
    rw [List.lookup]
    cases hk2 : (k == k2) with
    | true => rfl
    | false => rfl

/-- Replacing the value at a different key leaves a lookup unchanged. -/
theorem lookup_map_set (d : Dict) (k k2 : String) (v : Val)
    (hne : (k == k2) = false) :
    (d.map (fun kv => if kv.1 = k2 then (k2, v) else kv)).lookup k
      = d.lookup k := by
  induction d with
  | nil => rfl
  | cons p t ih =>
    obtain ⟨a, b⟩ := p
    rw [List.map_cons]
    by_cases hak : a = k2
    · subst hak
      rw [if_pos rfl]
      rw [List.lookup, List.lookup, hne]
      exact ih
    · rw [if_neg hak]
      rw [List.lookup, List.lookup]
      cases hka : (k == a) with
      | true => rfl
      | false => exact ih

/-- Replacing the value at a present key makes the lookup return it. -/
theorem lookup_map_set_self (d : Dict) (k : String) (v : Val)
    (hk : hasKey d k = true) :
    (d.map (fun kv => if kv.1 = k then (k, v) else kv)).lookup k
      = Option.some v := by
  induction d with
  | nil => exact absurd hk (by rw [hasKey]; exact Bool.false_ne_true)
  | cons p t ih =>
    obtain ⟨a, b⟩ := p
    rw [List.map_cons]
    by_cases hak : a = k
    · subst hak
      rw [if_pos rfl]
      rw [List.lookup]
      rw [BEq.refl]
    · rw [if_neg hak]
      have hka : (k == a) = false := by
        cases hq : (k == a) with
        | true => exact absurd (eq_of_beq hq).symm hak
        | false => rfl
      have hk' : hasKey t k = true := by
        unfold hasKey at hk
        rw [List.lookup, hka] at hk
        exact hk
      rw [List.lookup, hka]
      exact ih hk'

/-- Lemma: `dset` at another key does not change key presence. -/
theorem hasKey_dset_ne (d : Dict) (k k2 : String) (v : Val)
    (hne : (k == k2) = false) :
    hasKey (dset d k2 v) k = hasKey d k := by
  unfold dset
  by_cases hk : hasKey d k2 = true
  · rw [if_pos hk]
    unfold hasKey
    rw [lookup_map_set d k k2 v hne]
  · rw [if_neg hk]
    rw [hasKey_append_single, hne, Bool.or_false]

/-- After `dset d k v` the key `k` is present. -/
theorem hasKey_dset_self (d : Dict) (k : String) (v : Val) :
    hasKey (dset d k v) k = true := by
  unfold dset
  by_cases hk : hasKey d k = true
  · rw [if_pos hk]
    unfold hasKey
    rw [lookup_map_set_self d k v hk]
    rfl
  · rw [if_neg hk]
    rw [hasKey_append_single]
    simp

/-- A successful `_build_yml_core` result never carries the optional
block keys `Modes`, `MvpDrops` or `Drops`. -/
theorem build_yml_core_keys (json stats : Dict) (mid : Int) (mvp : Bool)
    (y0 : Dict) (h : _build_yml_core json stats mid mvp = Except.ok y0) :
    hasKey y0 "Modes" = false ∧ hasKey y0 "MvpDrops" = false ∧
    hasKey y0 "Drops" = false := by
  unfold _build_yml_core at h
  simp only [except_bind_ok, pure, Except.pure, Except.ok.injEq] at h
  obtain ⟨name, -, ea, -, elb, -, ais, -, ca, -, hy⟩ := h
  subst hy
  exact ⟨rfl, rfl, rfl⟩
/-- Unfolding `_attach_drops` for an MVP record whose core block carries
no optional keys: both drop lists were resolved, `Modes` is always set,
and each optional block key is present exactly when its resolved drop
list is non-empty. -/
theorem attach_drops_mvp (dbs : List (Option Dict)) (y0 json yml : Dict)
    (hMD : hasKey y0 "MvpDrops" = false)
    (hD : hasKey y0 "Drops" = false)
    (h : _attach_drops dbs y0 json true = Except.ok yml) :
    ∃ ml nl,
      yaml_helper.get_drops dbs (dgetD json "mvpdrops" (Val.list []))
          = Except.ok ml ∧
      yaml_helper.get_drops dbs (dgetD json "drops" (Val.list []))
          = Except.ok nl ∧
      hasKey yml "MvpDrops" = !ml.isEmpty ∧
      hasKey yml "Drops" = !nl.isEmpty ∧
      hasKey yml "Modes" = true := by
  unfold _attach_drops at h
  rw [if_pos rfl] at h
  simp only [except_bind_ok, pure, Except.pure, Except.ok.injEq] at h
  obtain ⟨ml, hml, yml1, hy1, nl, hnl, hy⟩ := h
  subst hy1
  subst hy
  refine ⟨ml, nl, hml, hnl, ?_, ?_, ?_⟩
  · cases hnv : nl.isEmpty with
    | true =>
      rw [if_pos rfl]
      cases hmv : ml.isEmpty with
      | true =>
        rw [if_pos rfl]
        rw [hasKey_dset_ne _ _ _ _ (by decide)]
        rw [hMD]
        rfl
      | false =>
        rw [if_neg Bool.false_ne_true]
        rw [hasKey_dset_self]
        rfl
    | false =>
      rw [if_neg Bool.false_ne_true]
      rw [hasKey_dset_ne _ _ _ _ (by decide)]
      cases hmv : ml.isEmpty with
      | true =>
        rw [if_pos rfl]
        rw [hasKey_dset_ne _ _ _ _ (by decide)]
        rw [hMD]
        rfl
      | false =>
        rw [if_neg Bool.false_ne_true]
        rw [hasKey_dset_self]
        rfl
  · cases hnv : nl.isEmpty with
    | true =>
      rw [if_pos rfl]
      cases hmv : ml.isEmpty with
      | true =>
        rw [if_pos rfl]
        rw [hasKey_dset_ne _ _ _ _ (by decide)]
        rw [hD]
        rfl
      | false =>
        rw [if_neg Bool.false_ne_true]
        rw [hasKey_dset_ne _ _ _ _ (by decide)]
        rw [hasKey_dset_ne _ _ _ _ (by decide)]
        rw [hD]
        rfl
    | false =>
      rw [if_neg Bool.false_ne_true]
      rw [hasKey_dset_self]
      rfl
  · cases hnv : nl.isEmpty with
    | true =>
      rw [if_pos rfl]
      cases hmv : ml.isEmpty with
      | true =>
        rw [if_pos rfl]
        exact hasKey_dset_self _ _ _
      | false =>
        rw [if_neg Bool.false_ne_true]
        rw [hasKey_dset_ne _ _ _ _ (by decide)]
        exact hasKey_dset_self _ _ _
    | false =>
      rw [if_neg Bool.false_ne_true]
      rw [hasKey_dset_ne _ _ _ _ (by decide)]
      cases hmv : ml.isEmpty with
      | true =>
        rw [if_pos rfl]
        exact hasKey_dset_self _ _ _
      | false =>
        rw [if_neg Bool.false_ne_true]
        rw [hasKey_dset_ne _ _ _ _ (by decide)]
        exact hasKey_dset_self _ _ _

/-- C8: for a source record with a valid non-zero identifier whose
`stats.mvp` coerces to 1, the assembled record always carries `Modes`,
carries `MvpDrops` exactly when at least one MVP-drop entry resolved
against the catalog, and carries `Drops` exactly when at least one
ordinary drop resolved — absent keys, never empty lists. -/
theorem mvp_drops_block_spec (dbs : List (Option Dict))
    (json stats yml : Dict) (mid : Int)
    (hid : pyInt (dget json "id") = Except.ok mid) (hmid : mid ≠ 0)
    (hstats : asDict (dgetD json "stats" (Val.dict [])) = Except.ok stats)
    (hmvp : pyInt (vOr (dget stats "mvp") (Val.int 0)) = Except.ok 1)
    (h : mount_monster_yaml dbs json = Except.ok yml) :
    ∃ ml nl,
      yaml_helper.get_drops dbs (dgetD json "mvpdrops" (Val.list []))
          = Except.ok ml ∧
      yaml_helper.get_drops dbs (dgetD json "drops" (Val.list []))
          = Except.ok nl ∧
      (hasKey yml "MvpDrops" = true ↔ ml ≠ []) ∧
      (hasKey yml "Drops" = true ↔ nl ≠ []) ∧
      hasKey yml "Modes" = true := by
  unfold mount_monster_yaml at h
  simp only [hid] at h
  rw [if_neg hmid] at h
  simp only [except_bind_ok] at h
  obtain ⟨stats2, hst2, mvpN, hmv2, y0, hcore, hatt⟩ := h
  rw [hstats] at hst2
  injection hst2 with e
  subst e
  rw [hmvp] at hmv2
  injection hmv2 with e2
  subst e2
  obtain ⟨hm0, hmd0, hd0⟩ := build_yml_core_keys json stats mid _ y0 hcore
  obtain ⟨ml, nl, hml, hnl, hkM, hkD, hkMo⟩ :=
    attach_drops_mvp dbs y0 json yml hmd0 hd0 hatt
  refine ⟨ml, nl, hml, hnl, ?_, ?_, hkMo⟩
  · rw [hkM]
    cases ml <;> simp
  · rw [hkD]
    cases nl <;> simp

/-- Item catalog used by the C8 witness. -/
def c8dbs : List (Option Dict) :=
  [Option.some [("Body",
    Val.list [Val.dict [("Id", Val.int 7), ("AegisName", Val.str "Apple")]])]]

/-- Source record used by the C8 witness: an MVP with one resolvable
MVP drop and no ordinary drops. -/
def c8json : Dict :=
  [("id", Val.int 100), ("stats", Val.dict [("mvp", Val.int 1)]),
   ("mvpdrops", Val.list [Val.dict [("itemId", Val.int 7)]])]

/-- The record assembled from `c8json`. -/
def c8yml : Dict :=
  match mount_monster_yaml c8dbs c8json with
  | Except.ok d => d
  | Except.error _ => []

/-- C8 witness: the concrete MVP record gets an `MvpDrops` block and no
`Drops` block. -/
theorem mvp_drops_block_spec_witness :
    (∃ ml nl,
      yaml_helper.get_drops c8dbs (dgetD c8json "mvpdrops" (Val.list []))
          = Except.ok ml ∧
      yaml_helper.get_drops c8dbs (dgetD c8json "drops" (Val.list []))
          = Except.ok nl ∧
      (hasKey c8yml "MvpDrops" = true ↔ ml ≠ []) ∧
      (hasKey c8yml "Drops" = true ↔ nl ≠ []) ∧
      hasKey c8yml "Modes" = true) ∧
    hasKey c8yml "MvpDrops" = true ∧ hasKey c8yml "Drops" = false :=
  ⟨mvp_drops_block_spec c8dbs c8json [("mvp", Val.int 1)] c8yml 100
      rfl (by decide) rfl rfl rfl,
    rfl, rfl⟩

/-!
### Claim C1: upsert round-trip
-/

/-- Whether a Body element is a record whose `Id` compares equal (Python
`==`) to the given identifier value — the match test of the upsert scan. -/
def id_matches (idv : Val) (m : Val) : Bool :=
  match m with
  | Val.dict kvs => pyEq (dget kvs "Id") idv
  | _ => false

/-- Lemma: `setdefault` leaves the key present. -/
theorem hasKey_setdefault_self (d : Dict) (k : String) (v : Val) :
    hasKey (setdefault d k v) k = true := by
  unfold setdefault
  by_cases hk : hasKey d k = true
  · rw [if_pos hk]
    exact hk
  · rw [if_neg hk]
    rw [hasKey_append_single]
    simp

/-- Lemma: `setdefault` at another key does not change key presence. -/
theorem hasKey_setdefault_ne (d : Dict) (k k2 : String) (v : Val)
    (hne : (k == k2) = false) :
    hasKey (setdefault d k2 v) k = hasKey d k := by
  unfold setdefault
  by_cases hk : hasKey d k2 = true
  · rw [if_pos hk]
  · rw [if_neg hk]
    rw [hasKey_append_single, hne, Bool.or_false]

/-- Lemma: `setdefault` on a present key is the identity. -/
theorem setdefault_of_present (d : Dict) (k : String) (v : Val)
    (hk : hasKey d k = true) : setdefault d k v = d := by
  unfold setdefault
  rw [if_pos hk]

/-- After `dset d k v`, looking up `k` yields `v`. -/
theorem lookup_dset_self (d : Dict) (k : String) (v : Val) :
    (dset d k v).lookup k = Option.some v := by
  unfold dset
  by_cases hk : hasKey d k = true
  · rw [if_pos hk]
    exact lookup_map_set_self d k v hk
  · rw [if_neg hk]
    rw [lookup_append_assoc]
    have hnone : d.lookup k = Option.none := by
      unfold hasKey at hk
      cases hq : d.lookup k with
      | some w => rw [hq] at hk; exact absurd rfl hk
      | none => rfl
    rw [hnone]
    rw [List.lookup]
    rw [BEq.refl]

/-- The loaded monster document always carries `Header` and `Body`. -/
theorem load_monster_db_keys (s : Option Dict) :
    hasKey (yaml_helper.load_monster_db s) "Header" = true ∧
    hasKey (yaml_helper.load_monster_db s) "Body" = true := by
  cases s with
  | none => exact ⟨rfl, rfl⟩
  | some data =>
    unfold yaml_helper.load_monster_db
    constructor
    · rw [hasKey_setdefault_ne _ _ _ _ (by decide)]
      exact hasKey_setdefault_self _ _ _
    · exact hasKey_setdefault_self _ _ _

/-- Full behaviour of the body scan: on a miss the list is returned
unchanged with `false`; on a hit the first matching record is replaced in
place with `true`, everything before it being a non-matching record. -/
theorem upsert_body_spec (entry : Dict) :
    ∀ (mobs mobs2 : List Val) (u : Bool),
      yaml_helper.upsert_body entry mobs = Except.ok (mobs2, u) →
      (u = false → mobs2 = mobs ∧
        ∀ m ∈ mobs, id_matches (dget entry "Id") m = false) ∧
      (u = true → ∃ i m, mobs.get? i = Option.some m ∧
        id_matches (dget entry "Id") m = true ∧
        (∀ j m2, j < i → mobs.get? j = Option.some m2 →
          id_matches (dget entry "Id") m2 = false) ∧
        mobs2 = mobs.set i (Val.dict entry)) := by
  intro mobs
  induction mobs with
  | nil =>
    intro mobs2 u h
    unfold yaml_helper.upsert_body at h
    injection h with h
    injection h with h1 h2
    subst h1
    subst h2
    constructor
    · intro _
      exact ⟨rfl, fun m hm => absurd hm (List.not_mem_nil m)⟩
    · intro hu
      exact absurd hu Bool.false_ne_true
  | cons mv rest ih =>
    intro mobs2 u h
    unfold yaml_helper.upsert_body at h
    simp only [except_bind_ok, pure, Except.pure, Except.ok.injEq] at h
    obtain ⟨mob, hmob, h⟩ := h
    have hmv : mv = Val.dict mob := by
      cases mv with
      | dict kvs =>
        injection hmob with e
        rw [e]
      | none => exact Except.noConfusion hmob
      | bool b => exact Except.noConfusion hmob
      | int n => exact Except.noConfusion hmob
      | str s => exact Except.noConfusion hmob
      | list xs => exact Except.noConfusion hmob
    subst hmv
    by_cases hp : pyEq (dget mob "Id") (dget entry "Id") = true
    · rw [if_pos hp] at h
      injection h with h
      injection h with h1 h2
      subst h1
      subst h2
      constructor
      · intro hu
        exact absurd hu.symm Bool.false_ne_true
      · intro _
        refine ⟨0, Val.dict mob, rfl, hp, ?_, rfl⟩
        intro j m2 hj
        exact absurd hj (Nat.not_lt_zero j)
    · rw [if_neg hp] at h
      simp only [except_bind_ok, pure, Except.pure, Except.ok.injEq] at h
      obtain ⟨ru, hru, h2⟩ := h
      obtain ⟨r1, u1⟩ := ru
      injection h2 with h2a h2b
      subst h2a
      subst h2b
      have ihs := ih r1 u1 hru
      have hpf : id_matches (dget entry "Id") (Val.dict mob) = false := by
        unfold id_matches
        exact Bool.eq_false_iff.mpr hp
      constructor
      · intro hu
        obtain ⟨he, hall⟩ := ihs.1 hu
        subst he
        refine ⟨rfl, ?_⟩
        intro m hm
        rcases List.mem_cons.mp hm with rfl | hm2
        · exact hpf
        · exact hall m hm2
      · intro hu
        obtain ⟨i, m, hg, hm, hprev, hset⟩ := ihs.2 hu
        refine ⟨i + 1, m, ?_, hm, ?_, ?_⟩
        · exact hg
        · intro j m2 hj hgj
          cases j with
          | zero =>
            injection hgj with e
            subst e
            exact hpf
          | succ j2 =>
            exact hprev j2 m2 (Nat.lt_of_succ_lt_succ hj) hgj
        · rw [hset]
          rfl

/-- Loading a saved document that already carries `Header` and `Body` is
the identity (the `setdefault` calls are no-ops). -/
theorem load_after_save (db : Dict)
    (hH : hasKey db "Header" = true) (hB : hasKey db "Body" = true) :
    yaml_helper.load_monster_db (Option.some db) = db := by
  show setdefault (setdefault db "Header"
      (Val.dict [("Type", Val.str "MOB_DB"), ("Version", Val.int 2)]))
      "Body" (Val.list []) = db
  rw [setdefault_of_present _ _ _ hH]
  exact setdefault_of_present _ _ _ hB

/-- Full behaviour of one `upsert_monster` call against the store: the
store afterwards holds a document whose loaded body is the scanned body —
appended on a miss (returning false), replaced in place at the first
match on a hit (returning true). -/
theorem upsert_monster_core (entry : Dict) (s s2 : Option Dict) (u : Bool)
    (mobs : List Val)
    (hbody : asList (dgetD (yaml_helper.load_monster_db s) "Body"
        (Val.list [])) = Except.ok mobs)
    (h : yaml_helper.upsert_monster entry s = Except.ok (s2, u)) :
    ∃ mobs2,
      asList (dgetD (yaml_helper.load_monster_db s2) "Body" (Val.list []))
          = Except.ok mobs2 ∧
      (u = false → mobs2 = mobs ++ [Val.dict entry] ∧
        ∀ m ∈ mobs, id_matches (dget entry "Id") m = false) ∧
      (u = true → ∃ i m, mobs.get? i = Option.some m ∧
        id_matches (dget entry "Id") m = true ∧
        (∀ j m2, j < i → mobs.get? j = Option.some m2 →
          id_matches (dget entry "Id") m2 = false) ∧
        mobs2 = mobs.set i (Val.dict entry)) := by
  unfold yaml_helper.upsert_monster at h
  simp only [except_bind_ok, pure, Except.pure, Except.ok.injEq] at h
  obtain ⟨mobs0, hm0, bu, hbu, hfin⟩ := h
  rw [hbody] at hm0
  injection hm0 with e
  subst e
  obtain ⟨b1, u1⟩ := bu
  injection hfin with hfa hfb
  subst hfa
  subst hfb
  have hdb := load_monster_db_keys s
  have hload := load_after_save
      (dset (yaml_helper.load_monster_db s) "Body"
        (Val.list (if u1 = true then b1 else b1 ++ [Val.dict entry])))
      (by rw [hasKey_dset_ne _ _ _ _ (by decide)]; exact hdb.1)
      (hasKey_dset_self _ _ _)
  refine ⟨if u1 = true then b1 else b1 ++ [Val.dict entry], ?_, ?_, ?_⟩
  · rw [hload]
    unfold dgetD
    rw [lookup_dset_self]
    rfl
  · intro hu
    subst hu
    have hs := (upsert_body_spec entry mobs b1 false hbu).1 rfl
    rw [if_neg Bool.false_ne_true]
    exact ⟨by rw [hs.1], hs.2⟩
  · intro hu
    subst hu
    have hs := (upsert_body_spec entry mobs b1 true hbu).2 rfl
    rw [if_pos rfl]
    exact hs

/-- In a list with at most one element satisfying `p`, replacing the
element found at a satisfying position by a satisfying `x` leaves exactly
`[x]` as the filtered content. -/
theorem filter_set_unique {α : Type} (p : α → Bool) :
    ∀ (l : List α) (i : Nat) (m x : α),
      l.get? i = Option.some m → p m = true → l.countP p ≤ 1 →
      p x = true → (l.set i x).filter p = [x] := by
  intro l
  induction l with
  | nil =>
    intro i m x hg
    simp [List.get?] at hg
  | cons a t ih =>
    intro i m x hg hm hc hx
    cases i with
    | zero =>
      injection hg with e
      subst e
      have hct : t.countP p = 0 := by
        rw [List.countP_cons] at hc
        simp only [hm, if_pos] at hc
        omega
      have hft : t.filter p = [] := by
        have := List.countP_eq_length_filter p t ▸ hct
        exact List.length_eq_zero.mp this
      show (x :: t).filter p = [x]
      rw [List.filter_cons, if_pos hx, hft]
    | succ j =>
      show (a :: t.set j x).filter p = [x]
      rw [List.filter_cons]
      by_cases hpa : p a = true
      · exfalso
        rw [List.countP_cons] at hc
        simp only [hpa, if_pos] at hc
        have hct : t.countP p = 0 := by omega
        have hmem : m ∈ t := List.get?_mem hg
        have hnone := List.countP_eq_zero.mp hct m hmem
        exact hnone hm
      · rw [if_neg hpa]
        have hc' : t.countP p ≤ 1 := by
          rw [List.countP_cons] at hc
          omega
        exact ih j m x hg hm hc' hx

/-- C1 (amended): for a record `r` with a positive integer `Id` and any
document state whose loaded body is a list containing at most one record
matching `r`'s Id, after `upsert_monster r` the reloaded body contains
exactly one record with `r`'s Id and it equals `r`; the call returns true
exactly when an existing record was replaced (in place, preserving
length) and false when `r` was appended; and any second upsert with the
same Id then returns true, keeps the collection length unchanged, and
replaces the record at its original position. -/
theorem upsert_roundtrip_spec (r : Dict) (n : Int) (s s2 : Option Dict)
    (u : Bool) (mobs : List Val)
    (hid : dget r "Id" = Val.int n) (hpos : 0 < n)
    (hbody : asList (dgetD (yaml_helper.load_monster_db s) "Body"
        (Val.list [])) = Except.ok mobs)
    (hcount : mobs.countP (id_matches (dget r "Id")) ≤ 1)
    (h : yaml_helper.upsert_monster r s = Except.ok (s2, u)) :
    ∃ mobs2,
      asList (dgetD (yaml_helper.load_monster_db s2) "Body" (Val.list []))
          = Except.ok mobs2 ∧
      mobs2.filter (id_matches (dget r "Id")) = [Val.dict r] ∧
      (u = true ↔ ∃ m ∈ mobs, id_matches (dget r "Id") m = true) ∧
      (u = true → mobs2.length = mobs.length ∧
        ∃ i m, mobs.get? i = Option.some m ∧
          id_matches (dget r "Id") m = true ∧
          mobs2 = mobs.set i (Val.dict r)) ∧
      (u = false → mobs2 = mobs ++ [Val.dict r]) ∧
      (∀ (r2 : Dict) (s3 : Option Dict) (u2 : Bool),
        dget r2 "Id" = dget r "Id" →
        yaml_helper.upsert_monster r2 s2 = Except.ok (s3, u2) →
        u2 = true ∧
        ∃ mobs3,
          asList (dgetD (yaml_helper.load_monster_db s3) "Body"
              (Val.list [])) = Except.ok mobs3 ∧
          mobs3.length = mobs2.length ∧
          ∃ i, mobs2.get? i = Option.some (Val.dict r) ∧
            mobs3 = mobs2.set i (Val.dict r2)) := by
  have hself : id_matches (dget r "Id") (Val.dict r) = true := by
    show pyEq (dget r "Id") (dget r "Id") = true
    rw [hid]
    simp [pyEq]
  obtain ⟨mobs2, hb2, hfalse, htrue⟩ := upsert_monster_core r s s2 u mobs hbody h
  have hfilter : mobs2.filter (id_matches (dget r "Id")) = [Val.dict r] := by
    cases u with
    | false =>
      obtain ⟨he, hnone⟩ := hfalse rfl
      subst he
      rw [List.filter_append]
      have hnil : mobs.filter (id_matches (dget r "Id")) = [] := by
        rw [List.filter_eq_nil_iff]
        intro a ha
        rw [hnone a ha]
        exact Bool.false_ne_true
      rw [hnil, List.filter_cons, if_pos hself, List.filter_nil]
      rfl
    | true =>
      obtain ⟨i, m, hg, hm, hprev, hset⟩ := htrue rfl
      rw [hset]
      exact filter_set_unique (id_matches (dget r "Id")) mobs i m
        (Val.dict r) hg hm hcount hself
  refine ⟨mobs2, hb2, hfilter, ?_, ?_, ?_, ?_⟩
  · constructor
    · intro hu
      obtain ⟨i, m, hg, hm, -, -⟩ := htrue hu
      exact ⟨m, List.get?_mem hg, hm⟩
    · intro ⟨m, hmem, hm⟩
      cases u with
      | true => rfl
      | false =>
        rw [(hfalse rfl).2 m hmem] at hm
        exact Bool.noConfusion hm
  · intro hu
    obtain ⟨i, m, hg, hm, -, hset⟩ := htrue hu
    constructor
    · rw [hset]
      exact List.length_set mobs i (Val.dict r)
    · exact ⟨i, m, hg, hm, hset⟩
  · intro hu
    exact (hfalse hu).1
  · intro r2 s3 u2 hid2 h2
    obtain ⟨mobs3, hb3, hf2, ht2⟩ :=
      upsert_monster_core r2 s2 s3 u2 mobs2 hb2 h2
    rw [hid2] at hf2 ht2
    have hrmem : Val.dict r ∈ mobs2 ∧
        id_matches (dget r "Id") (Val.dict r) = true := by
      have hmf : Val.dict r ∈ mobs2.filter (id_matches (dget r "Id")) := by
        rw [hfilter]
        exact List.mem_singleton.mpr rfl
      exact List.mem_filter.mp hmf
    cases u2 with
    | false =>
      exfalso
      rw [(hf2 rfl).2 (Val.dict r) hrmem.1] at hself
      exact Bool.noConfusion hself
    | true =>
      refine ⟨rfl, ?_⟩
      obtain ⟨i, m, hg, hm, -, hset⟩ := ht2 rfl
      have hmr : m = Val.dict r := by
        have hmf : m ∈ mobs2.filter (id_matches (dget r "Id")) :=
          List.mem_filter.mpr ⟨List.get?_mem hg, hm⟩
        rw [hfilter] at hmf
        exact List.mem_singleton.mp hmf
      subst hmr
      refine ⟨mobs3, hb3, ?_, i, hg, hset⟩
      rw [hset]
      exact List.length_set mobs2 i (Val.dict r2)

/-- Record used by the C1 witness. -/
def c1r : Dict := [("Id", Val.int 1001), ("Name", Val.str "Scorpion")]

/-- Result of upserting `c1r` into an empty store. -/
def c1res : Option Dict × Bool :=
  match yaml_helper.upsert_monster c1r Option.none with
  | Except.ok p => p
  | Except.error _ => (Option.none, false)

/-- C1 witness: upserting a fresh record into a missing document appends
it, and the round-trip properties hold concretely. -/
theorem upsert_roundtrip_spec_witness :
    (0 : Int) < 1001 ∧
    ∃ mobs2,
      asList (dgetD (yaml_helper.load_monster_db c1res.1) "Body"
          (Val.list [])) = Except.ok mobs2 ∧
      mobs2.filter (id_matches (dget c1r "Id")) = [Val.dict c1r] ∧
      (c1res.2 = true ↔ ∃ m ∈ ([] : List Val),
        id_matches (dget c1r "Id") m = true) ∧
      (c1res.2 = true → mobs2.length = ([] : List Val).length ∧
        ∃ i m, ([] : List Val).get? i = Option.some m ∧
          id_matches (dget c1r "Id") m = true ∧
          mobs2 = ([] : List Val).set i (Val.dict c1r)) ∧
      (c1res.2 = false → mobs2 = ([] : List Val) ++ [Val.dict c1r]) ∧
      (∀ (r2 : Dict) (s3 : Option Dict) (u2 : Bool),
        dget r2 "Id" = dget c1r "Id" →
        yaml_helper.upsert_monster r2 c1res.1 = Except.ok (s3, u2) →
        u2 = true ∧
        ∃ mobs3,
          asList (dgetD (yaml_helper.load_monster_db s3) "Body"
              (Val.list [])) = Except.ok mobs3 ∧
          mobs3.length = mobs2.length ∧
          ∃ i, mobs2.get? i = Option.some (Val.dict c1r) ∧
            mobs3 = mobs2.set i (Val.dict r2)) :=
  ⟨by decide,
    upsert_roundtrip_spec c1r 1001 Option.none c1res.1 c1res.2 []
      rfl (by decide) rfl (by decide) rfl⟩

/-- C1 counterexample store: a document whose Body already holds two
records with Id 5 (the claim quantifies over every document state). -/
def c1dup_store : Option Dict :=
  Option.some
    [("Header", Val.dict [("Type", Val.str "MOB_DB"), ("Version", Val.int 2)]),
     ("Body", Val.list [Val.dict [("Id", Val.int 5), ("Name", Val.str "A")],
                        Val.dict [("Id", Val.int 5), ("Name", Val.str "B")]])]

/-- The upserted record for the C1 counterexample. -/
def c1entry : Dict := [("Id", Val.int 5), ("Name", Val.str "C")]

/-- How many records with the given Id the document contains after an
upsert (0 when the upsert failed or removed the store). -/
def after_upsert_count (e : Except Unit (Option Dict × Bool))
    (idv : Val) : Nat :=
  match e with
  | Except.ok (Option.some db, _) =>
    match (yaml_helper.load_monster_db (Option.some db)).lookup "Body" with
    | Option.some (Val.list mobs) => mobs.countP (fun m => id_matches idv m)
    | _ => 0
  | _ => 0

/-- C1 counterexample: upserting a record with a positive Id into a
document that already holds two records with that Id leaves two matching
records — not exactly one — because only the first match is replaced. -/
theorem upsert_duplicate_counterexample :
    after_upsert_count
        (yaml_helper.upsert_monster c1entry c1dup_store) (Val.int 5) = 2 ∧
    dget c1entry "Id" = Val.int 5 :=
  ⟨rfl, rfl⟩
